import Mathlib

/-!
Shallow embedding of the NextFlow content script (content/shorts.js): the
playback-monitoring and advancement engine.  Pure functions model the
script's decision logic; DOM query results appear as explicit inputs, and
the module-level mutable variables (SETTINGS, lastActionTimestamp,
delayedActionTimer, currentVideo and the handler slots) form an explicit
state threaded through a step relation over the script's event handlers.
-/

namespace NextFlow

/-- Settings record kept by the content script (shorts.js lines 14-20).
The field `delayMs` is a JavaScript number, embedded as a rational. -/
structure Settings where
  autoScroll : Bool
  skipAds : Bool
  delayMs : ℚ
  onlyOnWifi : Bool
  pauseOnUnskippableAds : Bool
deriving DecidableEq

/-- Built-in default settings (shorts.js lines 14-20). -/
def defaultSettings : Settings :=
  { autoScroll := true, skipAds := false, delayMs := 500,
    onlyOnWifi := false, pauseOnUnskippableAds := true }

/-- An incoming settings payload (`msg.payload`).  JavaScript objects are
open, so any subset of the five keys may be present; absent keys are `none`. -/
structure SettingsPatch where
  autoScroll : Option Bool
  skipAds : Option Bool
  delayMs : Option ℚ
  onlyOnWifi : Option Bool
  pauseOnUnskippableAds : Option Bool
deriving DecidableEq

/-- Embedding of `Object.assign(\x7b\x7d, s, p)` restricted to the settings
shape (shorts.js line 439): keys present in the payload override, absent
keys keep their previous value. -/
def objectAssign (s : Settings) (p : SettingsPatch) : Settings :=
  { autoScroll := p.autoScroll.getD s.autoScroll,
    skipAds := p.skipAds.getD s.skipAds,
    delayMs := p.delayMs.getD s.delayMs,
    onlyOnWifi := p.onlyOnWifi.getD s.onlyOnWifi,
    pauseOnUnskippableAds := p.pauseOnUnskippableAds.getD s.pauseOnUnskippableAds }

/-- A payload carrying every field of a full settings value, as sent by the
background worker (background.js always broadcasts a complete settings
object shaped by its DEFAULTS). -/
def Settings.toPatch (s : Settings) : SettingsPatch :=
  { autoScroll := some s.autoScroll, skipAds := some s.skipAds,
    delayMs := some s.delayMs, onlyOnWifi := some s.onlyOnWifi,
    pauseOnUnskippableAds := some s.pauseOnUnskippableAds }

/-- Results of the DOM queries the script performs at a decision point.
Each field abstracts one query of shorts.js:
`adMarkerPresent` - one of the six ad-container selectors matches
(lines 103-112); `skipButtonVisible` - `findSkipButton()` returns a
visible element (lines 127-155); `adBadgePresent` - a metadata badge whose
text matches the ad pattern exists (lines 118-119); `playerNextVisible` -
a visible player-next button exists (lines 175-191); `nextShortLinkVisible` -
a visible anchor to a different short exists (lines 222-248);
`connectionType` - `navigator.connection.effectiveType` when available
(lines 51-56). -/
structure Page where
  adMarkerPresent : Bool
  skipButtonVisible : Bool
  adBadgePresent : Bool
  playerNextVisible : Bool
  nextShortLinkVisible : Bool
  connectionType : Option String
deriving DecidableEq

/-- Embedding of `isAdPlaying()` (shorts.js lines 97-124): ad selectors,
then the visible-skip-button check via `findSkipButton()`, then the ad
badge; true on the first match. -/
def isAdPlaying (p : Page) : Bool :=
  p.adMarkerPresent || p.skipButtonVisible || p.adBadgePresent

/-- Embedding of `networkAllows()` (shorts.js lines 48-60): passes unless
`onlyOnWifi` is set; with `onlyOnWifi`, passes for the fast connection
categories, and passes conservatively when no connection info exists. -/
def networkAllows (s : Settings) (p : Page) : Bool :=
  if !s.onlyOnWifi then true
  else
    match p.connectionType with
    | some t => t == "4g" || t == "5g" || t == "wifi" || t == "ethernet"
    | none => true

/-- The four side-effecting advancement strategies. -/
inductive Action where
  | clickSkip
  | clickPlayerNext
  | clickNextLink
  | scroll
deriving DecidableEq

/-- Embedding of `tryClickSkipButtonIfAllowed()` (shorts.js lines 194-207):
requires the skipAds policy and a visible skip button found by
`findSkipButton()`.  Invoking the control does not throw in the model. -/
def tryClickSkipButtonIfAllowed (s : Settings) (p : Page) : Option Action :=
  if !s.skipAds then none
  else if p.skipButtonVisible then some Action.clickSkip
  else none

/-- Embedding of `tryClickPlayerNext()` (shorts.js lines 175-191). -/
def tryClickPlayerNext (p : Page) : Option Action :=
  if p.playerNextVisible then some Action.clickPlayerNext else none

/-- Embedding of `tryClickNextShortLink()` (shorts.js lines 222-248). -/
def tryClickNextShortLink (p : Page) : Option Action :=
  if p.nextShortLinkVisible then some Action.clickNextLink else none

/-- Embedding of `tryScrollToNext()` (shorts.js lines 210-219): the
viewport-height smooth scroll, which always succeeds (the catch branch is
unreachable in the model since `window.scrollBy` does not throw). -/
def tryScrollToNext : Option Action :=
  some Action.scroll

/-- Debounce interval `ACTION_DEBOUNCE_MS` (shorts.js line 28). -/
def ACTION_DEBOUNCE_MS : Int := 800

/-- Embedding of `goToNextShort()` (shorts.js lines 251-274).  Inputs are
the current settings, the page state, the current time `t` (ms) and the
stored `lastActionTimestamp`; the result is the returned boolean, the
action performed (if any), and the updated `lastActionTimestamp`. -/
def goToNextShort (s : Settings) (p : Page) (t last : Int) :
    Bool × Option Action × Int :=
  if t - last < ACTION_DEBOUNCE_MS then (false, none, last)
  else
    match tryClickSkipButtonIfAllowed s p with
    | some a => (true, some a, t)
    | none =>
      match tryClickPlayerNext p with
      | some a => (true, some a, t)
      | none =>
        match tryClickNextShortLink p with
        | some a => (true, some a, t)
        | none =>
          match tryScrollToNext with
          | some a => (true, some a, t)
          | none => (false, none, t)

/-- Embedding of `clamp()` (shorts.js lines 43-45):
`Math.max(lo, Math.min(hi, n))`. -/
def clamp (n lo hi : ℚ) : ℚ :=
  max lo (min hi n)

/-- The delay armed by `scheduleNextActionWithDelay()` (shorts.js line 356):
`clamp(Number(SETTINGS.delayMs) || 0, 0, 15000)`.  With `delayMs` embedded
as a rational, `Number` is the identity and `|| 0` only maps the falsy
number 0 to itself. -/
def effectiveDelay (s : Settings) : ℚ :=
  clamp s.delayMs 0 15000

/-- Embedding of `scheduleNextActionWithDelay()` (shorts.js lines 349-372)
as a state update of `delayedActionTimer`: any existing timer is cleared and
a fresh timer armed for the clamped delay. -/
def scheduleNextActionWithDelay (s : Settings) : Option ℚ :=
  some (effectiveDelay s)

/-- Embedding of the delayed-action timer callback body (shorts.js lines
358-371): re-check `isAdPlaying()` and drop the action if an ad shows,
otherwise run `goToNextShort()`.  Result: the action performed (if any)
and the updated `lastActionTimestamp`. -/
def delayedActionCallback (s : Settings) (p : Page) (t last : Int) :
    Option Action × Int :=
  if isAdPlaying p then (none, last)
  else
    let r := goToNextShort s p t last
    (r.2.1, r.2.2)

/-- A JavaScript number as it can reach the duration computation: a finite
value, NaN, or an infinity. -/
inductive JsNum where
  | val (q : ℚ)
  | nan
  | posInf
  | negInf
deriving DecidableEq

/-- Embedding of `x || 0` on a number: NaN is falsy and becomes 0; the
falsy number 0 maps to 0 (itself); every other value is kept. -/
def JsNum.orZero : JsNum → JsNum
  | .nan => .val 0
  | x => x

/-- The dual finish threshold of the progress handler (shorts.js line 303):
`pct >= 98 || (dur - cur) <= 0.7` with `pct = (cur / dur) * 100`. -/
def effectivelyFinished (cur dur : ℚ) : Bool :=
  if (cur / dur) * 100 ≥ 98 then true
  else if dur - cur ≤ 7 / 10 then true
  else false

/-- Embedding of the decision of `timeupdateHandler` (shorts.js lines
287-311): whether the handler requests scheduling of an advancement.
Mirrors, in order: `dur = duration || 0`, the non-finite / non-positive
duration guard, the ad gate, the dual finish threshold, and the
autoScroll and network-policy gate. -/
def timeupdateSchedules (s : Settings) (p : Page) (cur : ℚ) (durRaw : JsNum) :
    Bool :=
  match durRaw.orZero with
  | .val dur =>
    if dur ≤ 0 then false
    else if isAdPlaying p then false
    else if effectivelyFinished cur dur then s.autoScroll && networkAllows s p
    else false
  | _ => false

/-- Embedding of the decision of `endedHandler` (shorts.js lines 314-325):
whether the completion handler requests scheduling of an advancement. -/
def endedSchedules (s : Settings) (p : Page) : Bool :=
  if isAdPlaying p then false
  else s.autoScroll && networkAllows s p

/-- Listener-binding state of the monitor: `currentVideo` and the handler
slots (`timeupdateHandler` and `endedHandler` are set and cleared together,
abstracted by `handlersBound`), plus the multiset `bound` of video elements
(by id) that carry live listener registrations from this script. -/
structure BindState where
  currentVideo : Option Nat
  handlersBound : Bool
  bound : List Nat
deriving DecidableEq

/-- Embedding of `detachVideoListeners()` (shorts.js lines 333-343):
removes the stored handlers from `currentVideo` when both exist, then
nulls `currentVideo` and the handler slots. -/
def detachVideoListeners (b : BindState) : BindState :=
  { currentVideo := none, handlersBound := false,
    bound :=
      match b.currentVideo with
      | some c => if b.handlersBound then b.bound.erase c else b.bound
      | none => b.bound }

/-- Embedding of `attachVideoListeners(video)` (shorts.js lines 280-331):
always detaches first, returns if the video is absent, otherwise records
the new current video and registers fresh handlers on it. -/
def attachVideoListeners (v : Option Nat) (b : BindState) : BindState :=
  match v with
  | none => detachVideoListeners b
  | some vid =>
    { currentVideo := some vid, handlersBound := true,
      bound := (detachVideoListeners b).bound ++ [vid] }

/-- Embedding of `scanAndAttach()` (shorts.js lines 378-387), with the
result of `findVisibleVideo()` passed in as `found`: rebind when a
different video is found, unbind when none is found, no-op when the found
video is already current. -/
def scanAndAttach (found : Option Nat) (b : BindState) : BindState :=
  match found with
  | some v => if b.currentVideo ≠ some v then attachVideoListeners (some v) b else b
  | none => detachVideoListeners b

/-- At most one registration is live, and it belongs to the current video
with the handler slots filled - the shape every reachable binding state has. -/
def SingleBound (b : BindState) : Prop :=
  b.bound.length ≤ 1 ∧
    ∀ x ∈ b.bound, b.currentVideo = some x ∧ b.handlersBound = true

/-- Full mutable state of the content script. -/
structure SysState where
  settings : Settings
  timer : Option ℚ
  last : Int
  bind : BindState
deriving DecidableEq

/-- Embedding of the `settingsUpdated` message handler (shorts.js lines
438-450): merge the payload into SETTINGS via `Object.assign`, clear the
outstanding timer when autoScroll ended up disabled, then rescan (with
`found` the result of `findVisibleVideo()` at that moment). -/
def onSettingsMessage (patch : SettingsPatch) (found : Option Nat)
    (st : SysState) : SysState :=
  let s := objectAssign st.settings patch
  let timer := if !s.autoScroll then none else st.timer
  { st with settings := s, timer := timer, bind := scanAndAttach found st.bind }

/-- Events the content script reacts to after startup. -/
inductive Event where
  | settingsUpdated (patch : SettingsPatch) (found : Option Nat)
  | timeupdate (p : Page) (cur : ℚ) (dur : JsNum)
  | ended (p : Page)
  | timerFire (p : Page) (t : Int)
  | rescan (found : Option Nat)

/-- One dispatch of an event handler: the successor state and the
advancement action performed during the handler, if any. -/
def step (st : SysState) : Event → SysState × Option Action
  | .settingsUpdated patch found => (onSettingsMessage patch found st, none)
  | .timeupdate p cur dur =>
    if st.bind.currentVideo = none then (st, none)
    else if timeupdateSchedules st.settings p cur dur then
      ({ st with timer := scheduleNextActionWithDelay st.settings }, none)
    else (st, none)
  | .ended p =>
    if endedSchedules st.settings p then
      ({ st with timer := scheduleNextActionWithDelay st.settings }, none)
    else (st, none)
  | .timerFire p t =>
    match st.timer with
    | none => (st, none)
    | some _ =>
      let r := delayedActionCallback st.settings p t st.last
      ({ st with timer := none, last := r.2 }, r.1)
  | .rescan found => ({ st with bind := scanAndAttach found st.bind }, none)

/-- Run a sequence of events from a state. -/
def run (st : SysState) (evs : List Event) : SysState :=
  evs.foldl (fun s e => (step s e).1) st

/-- State at startup: default settings, no timer, no binding. -/
def startState : SysState :=
  { settings := defaultSettings, timer := none, last := 0,
    bind := { currentVideo := none, handlersBound := false, bound := [] } }

/-- Whenever advancement is disabled, no live scheduled advancement remains. -/
def AdvInv (st : SysState) : Prop :=
  st.settings.autoScroll = false → st.timer = none

/-- A page whose only positive query is a visible skip control. -/
def pSkip : Page :=
  { adMarkerPresent := false, skipButtonVisible := true, adBadgePresent := false,
    playerNextVisible := false, nextShortLinkVisible := false, connectionType := none }

/-- A page with an ad-container marker and nothing else. -/
def pAd : Page :=
  { adMarkerPresent := true, skipButtonVisible := false, adBadgePresent := false,
    playerNextVisible := false, nextShortLinkVisible := false, connectionType := none }

/-- A page where every query comes back empty. -/
def pPlain : Page :=
  { adMarkerPresent := false, skipButtonVisible := false, adBadgePresent := false,
    playerNextVisible := false, nextShortLinkVisible := false, connectionType := none }

/-- A binding state with one live registration on the current video. -/
def bOne : BindState :=
  { currentVideo := some 1, handlersBound := true, bound := [1] }

/-- Ad gating kills the progress handler's scheduling decision. -/
lemma timeupdateSchedules_eq_false_of_ad (s : Settings) (p : Page) (cur : ℚ)
    (durRaw : JsNum) (h : isAdPlaying p = true) :
    timeupdateSchedules s p cur durRaw = false := by
  unfold timeupdateSchedules
  rcases hz : durRaw.orZero with q | _ | _ | _ <;> simp [h]

/-- Ad gating kills the completion handler's scheduling decision. -/
lemma endedSchedules_eq_false_of_ad (s : Settings) (p : Page)
    (h : isAdPlaying p = true) :
    endedSchedules s p = false := by
  simp [endedSchedules, h]

/-- The timer callback drops the action when an ad shows at fire time. -/
lemma delayedActionCallback_eq_of_ad (s : Settings) (p : Page) (t last : Int)
    (h : isAdPlaying p = true) :
    delayedActionCallback s p t last = (none, last) := by
  simp [delayedActionCallback, h]

/-- A timer firing while an ad shows only clears the timer: no action, no
other state change. -/
lemma step_timerFire_of_ad (st : SysState) (p : Page) (t : Int)
    (h : isAdPlaying p = true) :
    step st (.timerFire p t) = ({ st with timer := none }, none) := by
  rcases htimer : st.timer with _ | d
  · simp [step, htimer]
    cases st
    simp_all
  · simp [step, htimer, delayedActionCallback_eq_of_ad _ _ _ _ h]

/-- C1: a `settingsUpdated` message whose payload carries a full
PolicySettings value makes every field of the active settings equal the
corresponding field of the payload - the merge performed by
`Object.assign` coincides with wholesale replacement because a complete
payload overrides every key. -/
theorem C1_settings_replaced_wholesale (st : SysState) (payload : Settings)
    (found : Option Nat) :
    (onSettingsMessage payload.toPatch found st).settings.autoScroll = payload.autoScroll
    ∧ (onSettingsMessage payload.toPatch found st).settings.skipAds = payload.skipAds
    ∧ (onSettingsMessage payload.toPatch found st).settings.delayMs = payload.delayMs
    ∧ (onSettingsMessage payload.toPatch found st).settings.onlyOnWifi = payload.onlyOnWifi
    ∧ (onSettingsMessage payload.toPatch found st).settings.pauseOnUnskippableAds
        = payload.pauseOnUnskippableAds
    ∧ (onSettingsMessage payload.toPatch found st).settings = payload := by
  cases payload
  exact ⟨rfl, rfl, rfl, rfl, rfl, rfl⟩

/-- C2: when a visible skip control exists at fire time of the delayed
advancement, `isAdPlaying()` reports true (the skip-control check is part
of ad detection), so the timer callback drops the action before reaching
`goToNextShort()`; the skip strategy can never run through the scheduled
path. -/
theorem C2_scheduled_path_never_skips (s : Settings) (p : Page) (t last : Int)
    (st : SysState) (h : p.skipButtonVisible = true) :
    isAdPlaying p = true
    ∧ delayedActionCallback s p t last = (none, last)
    ∧ step st (.timerFire p t) = ({ st with timer := none }, none) := by
  have hAd : isAdPlaying p = true := by simp [isAdPlaying, h]
  exact ⟨hAd, delayedActionCallback_eq_of_ad s p t last hAd,
    step_timerFire_of_ad st p t hAd⟩

/-- Witness for C2 at a concrete page with a visible skip control. -/
theorem C2_scheduled_path_never_skips_witness :
    isAdPlaying pSkip = true
    ∧ delayedActionCallback defaultSettings pSkip 1000 0 = (none, 0)
    ∧ step startState (.timerFire pSkip 1000) = ({ startState with timer := none }, none) :=
  C2_scheduled_path_never_skips defaultSettings pSkip 1000 0 startState rfl

/-- C3: with `isAdPlaying()` true, the fired timer callback drops the
scheduled action silently (no strategy, no rescheduling) and neither the
progress handler nor the completion handler schedules an advancement. -/
theorem C3_ad_gate_at_schedule_and_fire (s : Settings) (p : Page)
    (t last : Int) (cur : ℚ) (durRaw : JsNum) (st : SysState)
    (h : isAdPlaying p = true) :
    delayedActionCallback s p t last = (none, last)
    ∧ timeupdateSchedules s p cur durRaw = false
    ∧ endedSchedules s p = false
    ∧ step st (.timeupdate p cur durRaw) = (st, none)
    ∧ step st (.ended p) = (st, none)
    ∧ step st (.timerFire p t) = ({ st with timer := none }, none) := by
  refine ⟨delayedActionCallback_eq_of_ad s p t last h,
    timeupdateSchedules_eq_false_of_ad s p cur durRaw h,
    endedSchedules_eq_false_of_ad s p h, ?_, ?_,
    step_timerFire_of_ad st p t h⟩
  · simp [step, timeupdateSchedules_eq_false_of_ad st.settings p cur durRaw h]
  · simp [step, endedSchedules_eq_false_of_ad st.settings p h]

/-- Witness for C3 at a concrete page with an ad-container marker. -/
theorem C3_ad_gate_at_schedule_and_fire_witness :
    delayedActionCallback defaultSettings pAd 1000 0 = (none, 0)
    ∧ timeupdateSchedules defaultSettings pAd (97 / 5) (.val 20) = false
    ∧ endedSchedules defaultSettings pAd = false :=
  ⟨(C3_ad_gate_at_schedule_and_fire defaultSettings pAd 1000 0 (97 / 5) (.val 20)
      startState rfl).1,
   (C3_ad_gate_at_schedule_and_fire defaultSettings pAd 1000 0 (97 / 5) (.val 20)
      startState rfl).2.1,
   (C3_ad_gate_at_schedule_and_fire defaultSettings pAd 1000 0 (97 / 5) (.val 20)
      startState rfl).2.2.1⟩

/-- Settings equal to the defaults except that skip-ads is enabled. -/
def sSkipOn : Settings :=
  { defaultSettings with skipAds := true }

/-- A debounced call returns false immediately without side effects. -/
lemma goToNextShort_debounced (s : Settings) (p : Page) (t last : Int)
    (h : t - last < ACTION_DEBOUNCE_MS) :
    goToNextShort s p t last = (false, none, last) := by
  simp [goToNextShort, h]

/-- Past the debounce, some strategy always fires (the scroll fallback is
unconditional) and the action timestamp is updated to the call time. -/
lemma goToNextShort_fires (s : Settings) (p : Page) (t last : Int)
    (h : ¬(t - last < ACTION_DEBOUNCE_MS)) :
    (goToNextShort s p t last).1 = true
    ∧ (goToNextShort s p t last).2.2 = t := by
  unfold goToNextShort
  rw [if_neg h]
  rcases h1 : tryClickSkipButtonIfAllowed s p with _ | a
  · rcases h2 : tryClickPlayerNext p with _ | a
    · rcases h3 : tryClickNextShortLink p with _ | a
      · simp [h1, h2, h3, tryScrollToNext]
      · simp [h1, h2, h3]
    · simp [h1, h2]
  · simp [h1]

/-- C4 counterexample: a call to `goToNextShort()` made 100ms after the
previous non-debounced invocation, with skipAds enabled and a visible skip
control, returns false and performs no action - the debounce fires first,
so the claim "every such call invokes the skip control and returns true"
fails at this input. -/
theorem C4_counterexample_debounced_skip_call :
    sSkipOn.skipAds = true
    ∧ pSkip.skipButtonVisible = true
    ∧ goToNextShort sSkipOn pSkip 100 0 = (false, none, 0)
    ∧ goToNextShort sSkipOn pSkip 100 0 ≠ (true, some Action.clickSkip, 100) := by
  decide

/-- C4 amended: for every call to `goToNextShort()` past the debounce with
skipAds enabled and a visible skip control, the skip control is invoked and
true is returned, regardless of whether other strategies would also apply. -/
theorem C4_amended_skip_strategy_priority (s : Settings) (p : Page)
    (t last : Int) (hdeb : ACTION_DEBOUNCE_MS ≤ t - last)
    (hs : s.skipAds = true) (hv : p.skipButtonVisible = true) :
    goToNextShort s p t last = (true, some Action.clickSkip, t) := by
  have h1 : tryClickSkipButtonIfAllowed s p = some Action.clickSkip := by
    simp [tryClickSkipButtonIfAllowed, hs, hv]
  unfold goToNextShort
  rw [if_neg (not_lt.mpr hdeb), h1]

/-- Witness for the amended C4: with every other strategy also applicable,
the skip control still wins. -/
theorem C4_amended_skip_strategy_priority_witness :
    goToNextShort sSkipOn
      { pSkip with playerNextVisible := true, nextShortLinkVisible := true }
      1000 0 = (true, some Action.clickSkip, 1000) :=
  C4_amended_skip_strategy_priority sSkipOn
    { pSkip with playerNextVisible := true, nextShortLinkVisible := true }
    1000 0 (by decide) rfl rfl

/-- C6: an invocation of `goToNextShort()` less than 800ms after the
previous non-debounced invocation returns false immediately with no action
and no timestamp change; of two finish-driven invocations whose second
falls inside the 800ms window opened by the first, only the first produces
an action and the second returns false. -/
theorem C6_debounce_window (s : Settings) (p1 p2 : Page) (t1 t2 last : Int)
    (h1 : ACTION_DEBOUNCE_MS ≤ t1 - last) (h2 : t2 - t1 < ACTION_DEBOUNCE_MS) :
    (∀ (p : Page) (t l : Int), t - l < ACTION_DEBOUNCE_MS →
      goToNextShort s p t l = (false, none, l))
    ∧ (goToNextShort s p1 t1 last).1 = true
    ∧ (goToNextShort s p1 t1 last).2.2 = t1
    ∧ goToNextShort s p2 t2 (goToNextShort s p1 t1 last).2.2 = (false, none, t1) := by
  have hfire := goToNextShort_fires s p1 t1 last (not_lt.mpr h1)
  refine ⟨fun p t l hl => goToNextShort_debounced s p t l hl,
    hfire.1, hfire.2, ?_⟩
  rw [hfire.2]
  exact goToNextShort_debounced s p2 t2 t1 h2

/-- Witness for C6: a first advancement at t=1000 succeeds, a second finish
signal at t=1500 is debounced. -/
theorem C6_debounce_window_witness :
    (goToNextShort defaultSettings pPlain 1000 0).1 = true
    ∧ goToNextShort defaultSettings pPlain 1500
        (goToNextShort defaultSettings pPlain 1000 0).2.2 = (false, none, 1000) :=
  ⟨(C6_debounce_window defaultSettings pPlain pPlain 1000 1500 0
      (by decide) (by decide)).2.1,
   (C6_debounce_window defaultSettings pPlain pPlain 1000 1500 0
      (by decide) (by decide)).2.2.2⟩

/-- C9: past the debounce, when the skip strategy does not apply, no next
control exists and no next-item link is found, `goToNextShort()` falls
through to the viewport-height scroll fallback and returns true. -/
theorem C9_scroll_fallback (s : Settings) (p : Page) (t last : Int)
    (hdeb : ACTION_DEBOUNCE_MS ≤ t - last)
    (hskip : s.skipAds = false ∨ p.skipButtonVisible = false)
    (hnext : p.playerNextVisible = false)
    (hlink : p.nextShortLinkVisible = false) :
    goToNextShort s p t last = (true, some Action.scroll, t) := by
  have h1 : tryClickSkipButtonIfAllowed s p = none := by
    rcases hskip with h | h <;> simp [tryClickSkipButtonIfAllowed, h]
  have h2 : tryClickPlayerNext p = none := by
    simp [tryClickPlayerNext, hnext]
  have h3 : tryClickNextShortLink p = none := by
    simp [tryClickNextShortLink, hlink]
  unfold goToNextShort
  rw [if_neg (not_lt.mpr hdeb), h1, h2, h3]
  rfl

/-- Witness for C9 on a page with no affordances at all. -/
theorem C9_scroll_fallback_witness :
    goToNextShort defaultSettings pPlain 1000 0 = (true, some Action.scroll, 1000) :=
  C9_scroll_fallback defaultSettings pPlain 1000 0 (by decide) (Or.inl rfl) rfl rfl

/-- Settings with an over-range delay. -/
def sBig : Settings :=
  { defaultSettings with delayMs := 20000 }

/-- Settings with a negative delay. -/
def sNeg : Settings :=
  { defaultSettings with delayMs := -5 }

/-- C10: the delay armed by `scheduleNextActionWithDelay()` is always
`delayMs` clamped into [0, 15000]: it lies in the range, values below 0
clamp to 0, values above 15000 clamp to 15000, and in-range values are
used unchanged. -/
theorem C10_delay_clamped (s : Settings) :
    scheduleNextActionWithDelay s = some (clamp s.delayMs 0 15000)
    ∧ 0 ≤ effectiveDelay s
    ∧ effectiveDelay s ≤ 15000
    ∧ (s.delayMs < 0 → effectiveDelay s = 0)
    ∧ (15000 < s.delayMs → effectiveDelay s = 15000)
    ∧ (0 ≤ s.delayMs → s.delayMs ≤ 15000 → effectiveDelay s = s.delayMs) := by
  unfold scheduleNextActionWithDelay effectiveDelay clamp
  refine ⟨rfl, le_max_left 0 _, ?_, ?_, ?_, ?_⟩
  · exact max_le (by norm_num) (min_le_left _ _)
  · intro h
    rw [min_eq_right (le_trans h.le (by norm_num)), max_eq_left h.le]
  · intro h
    rw [min_eq_left h.le, max_eq_right (by norm_num)]
  · intro h0 h1
    rw [min_eq_right h1, max_eq_right h0]

/-- Witness for C10: delay 20000 is used as 15000, delay -5 as 0. -/
theorem C10_delay_clamped_witness :
    effectiveDelay sBig = 15000 ∧ effectiveDelay sNeg = 0 :=
  ⟨(C10_delay_clamped sBig).2.2.2.2.1 (by decide),
   (C10_delay_clamped sNeg).2.2.2.1 (by decide)⟩

/-- C5: for a finite positive duration the progress handler declares
effective finish exactly when the completion fraction reaches 0.98 or the
remaining time is at most 0.7 seconds; the handler is a no-op on NaN,
infinite or zero durations; past the ad gate its scheduling decision is
the finish threshold conjoined with the autoScroll and network gates; and
the spec scenario duration 20.0s, position 19.4s finishes via the
remaining-time arm even though the fraction arm fails. -/
theorem C5_finish_thresholds (s : Settings) (p : Page) (cur dur : ℚ)
    (hd : 0 < dur) (had : isAdPlaying p = false) :
    (effectivelyFinished cur dur = true ↔
      98 / 100 ≤ cur / dur ∨ dur - cur ≤ 7 / 10)
    ∧ timeupdateSchedules s p cur .nan = false
    ∧ timeupdateSchedules s p cur .posInf = false
    ∧ timeupdateSchedules s p cur (.val 0) = false
    ∧ timeupdateSchedules s p cur (.val dur)
        = (effectivelyFinished cur dur && (s.autoScroll && networkAllows s p))
    ∧ effectivelyFinished (97 / 5) 20 = true
    ∧ ¬(98 / 100 ≤ (97 / 5 : ℚ) / 20)
    ∧ ((20 : ℚ) - 97 / 5 ≤ 7 / 10) := by
  refine ⟨?_, by norm_num [timeupdateSchedules, JsNum.orZero],
    by norm_num [timeupdateSchedules, JsNum.orZero],
    by norm_num [timeupdateSchedules, JsNum.orZero], ?_,
    by norm_num [effectivelyFinished], by norm_num, by norm_num⟩
  · unfold effectivelyFinished
    split_ifs with hf hr
    · constructor
      · intro _
        left
        linarith
      · intro _
        rfl
    · constructor
      · intro _
        right
        exact hr
      · intro _
        rfl
    · simp only [Bool.false_eq_true, false_iff]
      rintro (hc | hc)
      · exact hf (by linarith)
      · exact hr hc
  · have h0 : ¬(dur ≤ 0) := not_le.mpr hd
    unfold timeupdateSchedules JsNum.orZero
    simp only [h0, had, if_false, Bool.false_eq_true, ite_false]
    cases heff : effectivelyFinished cur dur <;> simp [heff]

/-- Witness for C5 at the spec's Scenario A values. -/
theorem C5_finish_thresholds_witness :
    (effectivelyFinished (97 / 5) 20 = true ↔
      98 / 100 ≤ (97 / 5 : ℚ) / 20 ∨ (20 : ℚ) - 97 / 5 ≤ 7 / 10)
    ∧ timeupdateSchedules defaultSettings pPlain (97 / 5) (.val 20)
        = (effectivelyFinished (97 / 5) 20
            && (defaultSettings.autoScroll && networkAllows defaultSettings pPlain))
    ∧ effectivelyFinished (97 / 5) 20 = true :=
  ⟨(C5_finish_thresholds defaultSettings pPlain (97 / 5) 20 (by norm_num) rfl).1,
   (C5_finish_thresholds defaultSettings pPlain (97 / 5) 20 (by norm_num) rfl).2.2.2.2.1,
   (C5_finish_thresholds defaultSettings pPlain (97 / 5) 20 (by norm_num) rfl).2.2.2.2.2.1⟩

/-- A binding state with no live registration is single-bound. -/
lemma singleBound_of_empty (b : BindState) (h : b.bound = []) : SingleBound b := by
  constructor
  · rw [h]
    simp
  · intro x hx
    rw [h] at hx
    cases hx

/-- Detaching under the single-binding invariant removes every live
registration. -/
lemma detach_bound_empty (b : BindState) (h : SingleBound b) :
    (detachVideoListeners b).bound = [] := by
  rcases hb : b.bound with _ | ⟨x, xs⟩
  · unfold detachVideoListeners
    rcases b.currentVideo with _ | c <;> simp [hb]
  · have hx := h.2 x (by rw [hb]; exact List.mem_cons_self x xs)
    have hxs : xs = [] := by
      have hlen := h.1
      rw [hb] at hlen
      simp only [List.length_cons] at hlen
      have : xs.length = 0 := by omega
      exact List.eq_nil_of_length_eq_zero this
    unfold detachVideoListeners
    rw [hx.1]
    simp [hx.2, hb, hxs]

/-- Attaching to a fresh video yields a single-bound state. -/
lemma attach_singleBound (b : BindState) (v : Nat) (h : SingleBound b) :
    SingleBound (attachVideoListeners (some v) b) := by
  have he := detach_bound_empty b h
  unfold attachVideoListeners
  constructor
  · simp [he]
  · intro x hx
    simp [he] at hx
    subst hx
    exact ⟨rfl, rfl⟩

/-- A rescan preserves the single-binding invariant. -/
lemma scanAndAttach_singleBound (b : BindState) (found : Option Nat)
    (h : SingleBound b) : SingleBound (scanAndAttach found b) := by
  rcases found with _ | v
  · exact singleBound_of_empty _ (detach_bound_empty b h)
  · unfold scanAndAttach
    show SingleBound (if b.currentVideo ≠ some v then attachVideoListeners (some v) b else b)
    by_cases hv : b.currentVideo ≠ some v
    · rw [if_pos hv]
      exact attach_singleBound b v h
    · rw [if_neg hv]
      exact h

/-- C8: after any rescan at most one target has live handlers bound;
attaching always routes through detach first (the new registration list is
the detached one plus the new video); detaching under the invariant leaves
no live registration; and a rescan that finds no qualifying target unbinds
the current one. -/
theorem C8_rebinding_invariant (b : BindState) (found : Option Nat)
    (h : SingleBound b) :
    SingleBound (scanAndAttach found b)
    ∧ (scanAndAttach found b).bound.length ≤ 1
    ∧ (∀ v : Nat, (attachVideoListeners (some v) b).bound
        = (detachVideoListeners b).bound ++ [v])
    ∧ (detachVideoListeners b).bound = []
    ∧ scanAndAttach none b = detachVideoListeners b := by
  have hs := scanAndAttach_singleBound b found h
  exact ⟨hs, hs.1, fun v => rfl, detach_bound_empty b h, rfl⟩

/-- Witness for C8: rescanning from a bound state onto a new video. -/
theorem C8_rebinding_invariant_witness :
    (scanAndAttach (some 2) bOne).bound.length ≤ 1
    ∧ (detachVideoListeners bOne).bound = [] :=
  ⟨(C8_rebinding_invariant bOne (some 2) (by unfold SingleBound; decide)).2.1,
   (C8_rebinding_invariant bOne (some 2) (by unfold SingleBound; decide)).2.2.2.1⟩

/-- With autoScroll disabled, the progress handler never schedules. -/
lemma timeupdateSchedules_eq_false_of_disabled (s : Settings) (p : Page)
    (cur : ℚ) (durRaw : JsNum) (h : s.autoScroll = false) :
    timeupdateSchedules s p cur durRaw = false := by
  unfold timeupdateSchedules
  rcases hz : durRaw.orZero with q | _ | _ | _ <;> simp [h]

/-- With autoScroll disabled, the completion handler never schedules. -/
lemma endedSchedules_eq_false_of_disabled (s : Settings) (p : Page)
    (h : s.autoScroll = false) : endedSchedules s p = false := by
  simp [endedSchedules, h]

/-- Every event handler preserves the disabled-implies-no-timer invariant. -/
lemma step_preserves_advInv (st : SysState) (e : Event) (h : AdvInv st) :
    AdvInv (step st e).1 := by
  cases e with
  | settingsUpdated patch found =>
    intro hs
    have hs' : (objectAssign st.settings patch).autoScroll = false := hs
    simp [step, onSettingsMessage, hs']
  | timeupdate p cur dur =>
    intro hs
    by_cases hv : st.bind.currentVideo = none
    · have he : (step st (.timeupdate p cur dur)).1 = st := by simp [step, hv]
      rw [he] at hs ⊢
      exact h hs
    · have hsch : timeupdateSchedules st.settings p cur dur = false := by
        have he : (step st (.timeupdate p cur dur)).1.settings = st.settings := by
          by_cases hq : timeupdateSchedules st.settings p cur dur = true <;>
            simp [step, hv, hq]
        rw [he] at hs
        exact timeupdateSchedules_eq_false_of_disabled st.settings p cur dur hs
      have he : (step st (.timeupdate p cur dur)).1 = st := by
        simp [step, hv, hsch]
      rw [he] at hs ⊢
      exact h hs
  | ended p =>
    intro hs
    have hsch : endedSchedules st.settings p = false := by
      have he : (step st (.ended p)).1.settings = st.settings := by
        by_cases hq : endedSchedules st.settings p = true <;> simp [step, hq]
      rw [he] at hs
      exact endedSchedules_eq_false_of_disabled st.settings p hs
    have he : (step st (.ended p)).1 = st := by simp [step, hsch]
    rw [he] at hs ⊢
    exact h hs
  | timerFire p t =>
    intro hs
    rcases ht : st.timer with _ | d
    · have he : (step st (.timerFire p t)).1 = st := by simp [step, ht]
      rw [he]
      exact ht
    · simp [step, ht]
  | rescan found =>
    intro hs
    have he : (step st (.rescan found)).1.timer = st.timer := by simp [step]
    rw [he]
    exact h hs

/-- Running any event sequence preserves the invariant. -/
lemma run_preserves_advInv (evs : List Event) :
    ∀ st : SysState, AdvInv st → AdvInv (run st evs) := by
  induction evs with
  | nil => exact fun st h => h
  | cons e tl ih => exact fun st h => ih (step st e).1 (step_preserves_advInv st e h)

/-- The startup state satisfies the invariant. -/
lemma startState_advInv : AdvInv startState :=
  fun _ => rfl

/-- C7: a settings update whose payload disables advancement synchronously
cancels any outstanding scheduled advancement during the message handler,
executes no strategy there, and a timer firing right after it performs no
strategy either; moreover in every state reachable from startup, whenever
advancement is disabled no live scheduled advancement remains. -/
theorem C7_disable_cancels_scheduled (patch : SettingsPatch)
    (h : patch.autoScroll = some false) :
    (∀ (st : SysState) (found : Option Nat),
      (step st (.settingsUpdated patch found)).1.timer = none
      ∧ (step st (.settingsUpdated patch found)).2 = none
      ∧ ∀ (p : Page) (t : Int),
          (step (step st (.settingsUpdated patch found)).1 (.timerFire p t)).2 = none)
    ∧ ∀ evs : List Event, AdvInv (run startState evs) := by
  constructor
  · intro st found
    have htimer : (onSettingsMessage patch found st).timer = none := by
      simp [onSettingsMessage, objectAssign, h]
    refine ⟨htimer, rfl, ?_⟩
    intro p t
    simp [step, htimer]
  · intro evs
    exact run_preserves_advInv evs startState startState_advInv

/-- A payload that only turns advancement off. -/
def patchOff : SettingsPatch :=
  { autoScroll := some false, skipAds := none, delayMs := none,
    onlyOnWifi := none, pauseOnUnskippableAds := none }

/-- Witness for C7: disabling advancement at startup state leaves no timer
and a following timer fire performs nothing. -/
theorem C7_disable_cancels_scheduled_witness :
    (step startState (.settingsUpdated patchOff none)).1.timer = none
    ∧ (step (step startState (.settingsUpdated patchOff none)).1
        (.timerFire pPlain 5000)).2 = none :=
  ⟨((C7_disable_cancels_scheduled patchOff rfl).1 startState none).1,
   ((C7_disable_cancels_scheduled patchOff rfl).1 startState none).2.2 pPlain 5000⟩

end NextFlow
